import Mathlib

/-!
# Verification of the OpenNIC MCP server against its specification

This file shallowly embeds the core of the `open-nic-mcp` server
(`src/index.ts`, in both its basic and its enhanced variant; the enhanced
variant with six tools is the one embedded here, as it is a superset) and
proves or refutes the claims of the specification about it.

Embedding conventions:
* Strings are Lean `String`s; the heuristic regex passes of the analyzers are
  embedded as explicit scanners over `List Char` that implement the concrete
  regular expressions of the source (leftmost match, greedy subpatterns with
  the backtracking behaviour worked out per pattern, global scanning that
  resumes after each match).
* Asynchronous collaborator calls (filesystem reads, `fs.access`, subprocess
  execution) are abstracted as oracle functions collected in a `Collab`
  structure; an `Except.error` from an oracle models a rejected promise, and
  the error string models the `${error}` string rendering of the rejected
  value at the catch site.
* Side effects are made observable as an explicit `Effect` trace returned by
  each handler next to its response.
* Thrown `McpError`s (the protocol-level errors of the dispatcher) are the
  `Except.error` results of the dispatch functions; content responses are
  `Except.ok`.
-/

/-! ## Character classes and generic string helpers

`isWordChar` is the JS regex class `\w`; `isSpaceChar` is the ASCII part of
the JS class `\s` (the source files and all inputs considered here contain
only ASCII whitespace). -/

def isWordChar (c : Char) : Bool :=
  (c ≥ 'a' && c ≤ 'z') || (c ≥ 'A' && c ≤ 'Z') || (c ≥ '0' && c ≤ '9') || c = '_'

def isSpaceChar (c : Char) : Bool :=
  c = ' ' || c = '\t' || c = '\n' || c = '\r' || c = '\x0b' || c = '\x0c'

/-- `containsL pat l`: does `pat` occur as a contiguous substring of `l`?
Embeds JS `String.prototype.includes`. -/
def containsL (pat : List Char) : List Char → Bool
  | [] => pat.isEmpty
  | l@(_ :: rest) => pat.isPrefixOf l || containsL pat rest

/-- `containsStr s pat`: JS `s.includes(pat)`. -/
def containsStr (s pat : String) : Bool :=
  containsL pat.data s.data

/-- JS `Array.prototype.join(sep)`. -/
def joinSep (sep : String) : List String → String
  | [] => ""
  | [a] => a
  | a :: b :: rest => a ++ sep ++ joinSep sep (b :: rest)

/-- JS `String.prototype.replace(pat, '')` with a string pattern: remove the
first occurrence of `pat` (a no-op when `pat` does not occur). -/
def replaceOnce (pat : List Char) : List Char → List Char
  | [] => []
  | c :: rest => if pat.isPrefixOf (c :: rest) then (c :: rest).drop pat.length else c :: replaceOnce pat rest

/-- JS `str.split(/\s+/)`, token part: accumulating a token (`acc` is the
reversed token built so far). A run of whitespace is a single separator; a
leading separator yields an empty first element and a trailing separator an
empty last element, as in JS. -/
def splitWsTok (acc : List Char) : List Char → List (List Char)
  | [] => [acc.reverse]
  | c :: rest => if isSpaceChar c then acc.reverse :: splitWsSep rest else splitWsTok (c :: acc) rest
where
  /-- separator part: skipping the rest of a whitespace run. -/
  splitWsSep : List Char → List (List Char)
    | [] => [[]]
    | c :: rest => if isSpaceChar c then splitWsSep rest else splitWsTok [c] rest

/-- JS `str.split(/\s+/)`. -/
def jsSplitWs (l : List Char) : List (List Char) := splitWsTok [] l

/-- JS `match.split(/\s+/).pop() || ''` as used by the extractor passes. -/
def lastTokenStr (mt : List Char) : String :=
  ⟨((jsSplitWs mt).getLast?).getD []⟩

/-! ## Text Extractor: the three regex passes of `analyzeVerilogFile`

Source (enhanced variant, `analyzeVerilogFile`):
```
const packageMatches = content.match(/import\s+(\w+)::\*/g) || [];
const packages = packageMatches.map(match => match.match(/import\s+(\w+)::\*/)?.[1] || '');
const signalMatches = content.match(/(?:logic|wire|reg)\s+(?:\[[^\]]+\])?\s*(\w+)/g) || [];
const signals = signalMatches.map(match => match.split(/\s+/).pop() || '');
const portMatches = content.match(/(?:input|output|inout)\s+(?:logic|wire|reg)?\s*(?:\[[^\]]+\])?\s*(\w+)/g) || [];
const ports = portMatches.map(match => match.split(/\s+/).pop() || '');
```
-/

/-- Try the literal alternatives of a regex alternation, in order; on success
return the consumed characters and the remainder. -/
def tryKeyword (kws : List String) (l : List Char) : Option (List Char × List Char) :=
  match kws with
  | [] => none
  | k :: ks => if k.data.isPrefixOf l then some (k.data, l.drop k.data.length) else tryKeyword ks l

/-- The subpattern `\[[^\]]+\]`: a bracket group with a nonempty body. -/
def tryBracket (l : List Char) : Option (List Char × List Char) :=
  match l with
  | '[' :: r =>
    let inner := r.takeWhile (fun c => c ≠ ']')
    if inner.isEmpty then none
    else
      match r.drop inner.length with
      | ']' :: rest => some ('[' :: (inner ++ [']']), rest)
      | _ => none
  | _ => none

/-- One attempted match of `import\s+(\w+)::\*` at the head of `l`; on success
returns `(capture, rest after the match)`.  The source re-runs the same regex
on the match text to recover the capture group; since the match text is
itself a full leftmost match, that re-run returns exactly this capture. -/
def tryImport (l : List Char) : Option (String × List Char) :=
  if "import".data.isPrefixOf l then
    let l1 := l.drop 6
    let ws := l1.takeWhile isSpaceChar
    if ws.isEmpty then none
    else
      let l2 := l1.drop ws.length
      let w := l2.takeWhile isWordChar
      if w.isEmpty then none
      else
        let l3 := l2.drop w.length
        if "::*".data.isPrefixOf l3 then some (⟨w⟩, l3.drop 3) else none
  else none

/-- One attempted match of `(?:logic|wire|reg)\s+(?:\[[^\]]+\])?\s*(\w+)` at
the head of `l`; on success returns `(match text, rest)`.  The greedy/optional
subpatterns are deterministic here because `\s`, `\w`, `[` and the keywords are
pairwise non-overlapping character classes; when the optional bracket group
matches but no `\w+` follows, backtracking to the empty bracket also fails
(the position then holds `[`, not a word character). -/
def trySignal (l : List Char) : Option (List Char × List Char) :=
  match tryKeyword ["logic", "wire", "reg"] l with
  | none => none
  | some (kw, l1) =>
    let ws := l1.takeWhile isSpaceChar
    if ws.isEmpty then none
    else
      let l2 := l1.drop ws.length
      match tryBracket l2 with
      | some (br, l3) =>
        let ws2 := l3.takeWhile isSpaceChar
        let l4 := l3.drop ws2.length
        let w := l4.takeWhile isWordChar
        if w.isEmpty then none
        else some (kw ++ ws ++ br ++ ws2 ++ w, l4.drop w.length)
      | none =>
        match l2 with
        | '[' :: _ => none
        | _ =>
          let w := l2.takeWhile isWordChar
          if w.isEmpty then none else some (kw ++ ws ++ w, l2.drop w.length)

/-- One attempted match of
`(?:input|output|inout)\s+(?:logic|wire|reg)?\s*(?:\[[^\]]+\])?\s*(\w+)` at
the head of `l`; on success returns `(match text, rest)`.  When the optional
type keyword matches but the rest of the pattern fails, backtracking gives
the keyword back and `(\w+)` then consumes the keyword text itself (which
always succeeds, as the keyword starts with a word character). -/
def tryPort (l : List Char) : Option (List Char × List Char) :=
  match tryKeyword ["input", "output", "inout"] l with
  | none => none
  | some (kw, l1) =>
    let ws := l1.takeWhile isSpaceChar
    if ws.isEmpty then none
    else
      let l2 := l1.drop ws.length
      match tryKeyword ["logic", "wire", "reg"] l2 with
      | some (kw2, l3) =>
        let ws2 := l3.takeWhile isSpaceChar
        let l4 := l3.drop ws2.length
        let full : Option (List Char × List Char) :=
          match tryBracket l4 with
          | some (br, l5) =>
            let ws3 := l5.takeWhile isSpaceChar
            let l6 := l5.drop ws3.length
            let w := l6.takeWhile isWordChar
            if w.isEmpty then none
            else some (kw ++ ws ++ kw2 ++ ws2 ++ br ++ ws3 ++ w, l6.drop w.length)
          | none =>
            match l4 with
            | '[' :: _ => none
            | _ =>
              let w := l4.takeWhile isWordChar
              if w.isEmpty then none else some (kw ++ ws ++ kw2 ++ ws2 ++ w, l4.drop w.length)
        match full with
        | some res => some res
        | none =>
          let w := l2.takeWhile isWordChar
          some (kw ++ ws ++ w, l2.drop w.length)
      | none =>
        match tryBracket l2 with
        | some (br, l5) =>
          let ws3 := l5.takeWhile isSpaceChar
          let l6 := l5.drop ws3.length
          let w := l6.takeWhile isWordChar
          if w.isEmpty then none
          else some (kw ++ ws ++ br ++ ws3 ++ w, l6.drop w.length)
        | none =>
          match l2 with
          | '[' :: _ => none
          | _ =>
            let w := l2.takeWhile isWordChar
            if w.isEmpty then none else some (kw ++ ws ++ w, l2.drop w.length)

/-- Global scan of a text with a single-match attempt function, as JS
`String.prototype.match` with the `g` flag: try at each position from left to
right, resume after the end of each match.  All patterns used here match at
least one character, so the JS empty-match advance rule never fires; `fuel`
is initialised with the text length, which bounds the number of steps. -/
def scanAux (try1 : List Char → Option (α × List Char)) : Nat → List Char → List α
  | 0, _ => []
  | _, [] => []
  | fuel + 1, l@(_ :: rest) =>
    match try1 l with
    | some (a, after) => a :: scanAux try1 fuel after
    | none => scanAux try1 fuel rest

/-- `ExtractedFacts` of the spec; field names follow the source's result
object of `analyzeVerilogFile` (its first field is named after the checked
construct kind in the source; renamed here to `synIssues` only because the
original spelling is not available as a Lean field name in this development). -/
structure VerilogAnalysis where
  synIssues : List String
  package_dependencies : List String
  signal_definitions : List String
  interface_ports : List String
deriving DecidableEq, Repr

/-- The pure core of `analyzeVerilogFile`: the three pattern passes over the
already-read file content. -/
def analyzeVerilogContent (content : String) : VerilogAnalysis :=
  let cs := content.data
  let packages := scanAux tryImport cs.length cs
  let signals := (scanAux trySignal cs.length cs).map lastTokenStr
  let ports := (scanAux tryPort cs.length cs).map lastTokenStr
  { synIssues := []
    package_dependencies := packages.filter (fun p => p.length > 0)
    signal_definitions := signals.filter (fun s => s.length > 0)
    interface_ports := ports.filter (fun p => p.length > 0) }

/-! ## Build-script analysis: the pure core of `analyzeMakefile`

Source:
```
const simMatch = content.match(/SIM\s*[:?]?=\s*(\w+)/);
const simulator = simMatch?.[1] || 'not_specified';
const targetMatches = content.match(/^(\w+):/gm) || [];
const targets = targetMatches.map(match => match.replace(':', ''));
const depMatches = content.match(/include\s+([^\s]+)/g) || [];
const deps = depMatches.map(match => match.replace('include ', ''));
const issues = [];
if (simulator === 'not_specified') { issues.push("SIM variable not explicitly set - may cause simulator selection issues"); }
if (!content.includes('COCOTB_')) { issues.push("Missing COCOTB configuration variables"); }
if (!content.includes('VERILOG_SOURCES')) { issues.push("VERILOG_SOURCES not defined - required for compilation"); }
```
-/

/-- One attempted match of `SIM\s*[:?]?=\s*(\w+)` at the head of `l`,
returning the capture.  The optional `[:?]` is deterministic: when it
consumes a `:` or `?` the following character must be `=`; backtracking to
the empty alternative would place `=` where the `:`/`?` stands, which fails
too, so a `:`/`?` not followed by `=` fails the position. -/
def trySimAt (l : List Char) : Option (List Char) :=
  if "SIM".data.isPrefixOf l then
    let l2 := (l.drop 3).dropWhile isSpaceChar
    let afterEq : Option (List Char) :=
      match l2 with
      | ':' :: '=' :: r => some r
      | '?' :: '=' :: r => some r
      | '=' :: r => some r
      | _ => none
    match afterEq with
    | none => none
    | some r =>
      let w := (r.dropWhile isSpaceChar).takeWhile isWordChar
      if w.isEmpty then none else some w
  else none

/-- First (leftmost) match of the `SIM` assignment regex, capture group 1. -/
def findSim : List Char → Option (List Char)
  | [] => none
  | l@(_ :: rest) =>
    match trySimAt l with
    | some w => some w
    | none => findSim rest

/-- `content.match(/SIM.../)?.[1] || 'not_specified'`. A capture is a
nonempty `\w+` so it is never the empty string, and the `||` default fires
exactly when there is no match. -/
def simConfigOf (content : String) : String :=
  match findSim content.data with
  | some w => ⟨w⟩
  | none => "not_specified"

/-- Split at every newline, keeping empty lines: the line starts are exactly
the positions where `^` matches under the `m` flag (the inputs considered
use `\n` line terminators only). -/
def splitLinesAux (acc : List Char) : List Char → List (List Char)
  | [] => [acc.reverse]
  | c :: rest => if c = '\n' then acc.reverse :: splitLinesAux [] rest else splitLinesAux (c :: acc) rest

/-- A match of `^(\w+):` on one line: a nonempty word run at the line start
followed by `:`.  The source maps the match text `name:` through
`.replace(':', '')`, which removes the first `:` and returns the capture. -/
def targetOfLine (line : List Char) : Option String :=
  let w := line.takeWhile isWordChar
  if w.isEmpty then none
  else
    match line.drop w.length with
    | ':' :: _ => some ⟨w⟩
    | _ => none

/-- All matches of `/^(\w+):/gm`, already passed through the `replace`.
The pattern matches at most once per line (after a match the global scan
resumes mid-line, and `^` only matches again after the next newline). -/
def scanTargets (cs : List Char) : List String :=
  (splitLinesAux [] cs).filterMap targetOfLine

/-- One attempted match of `include\s+([^\s]+)` at the head of `l`,
returning `(match text, rest)`. -/
def tryInclude (l : List Char) : Option (List Char × List Char) :=
  if "include".data.isPrefixOf l then
    let l1 := l.drop 7
    let ws := l1.takeWhile isSpaceChar
    if ws.isEmpty then none
    else
      let l2 := l1.drop ws.length
      let cap := l2.takeWhile (fun c => !isSpaceChar c)
      if cap.isEmpty then none
      else some ("include".data ++ ws ++ cap, l2.drop cap.length)
  else none

/-- The result record of `analyzeMakefile` (the spec's build-script
analysis). -/
structure MakefileAnalysis where
  simulator_config : String
  test_targets : List String
  dependencies : List String
  issues : List String
deriving DecidableEq, Repr

def issueSimNotSet : String :=
  "SIM variable not explicitly set - may cause simulator selection issues"

def issueCocotb : String :=
  "Missing COCOTB configuration variables"

def issueVerilogSources : String :=
  "VERILOG_SOURCES not defined - required for compilation"

/-- The fixed check order of the build-script policy checks: the three
sequential `issues.push` calls become a fixed-order list append. -/
def issuesOf (content : String) : List String :=
  (if simConfigOf content = "not_specified" then [issueSimNotSet] else []) ++
  (if containsStr content "COCOTB_" then [] else [issueCocotb]) ++
  (if containsStr content "VERILOG_SOURCES" then [] else [issueVerilogSources])

/-- The pure core of `analyzeMakefile`: the analysis of the already-read
build-script content. -/
def analyzeMakefileContent (content : String) : MakefileAnalysis :=
  let cs := content.data
  { simulator_config := simConfigOf content
    test_targets := scanTargets cs
    dependencies := (scanAux tryInclude cs.length cs).map (fun mt => (⟨replaceOnce "include ".data mt⟩ : String))
    issues := issuesOf content }

/-! ## Process Runner: `executeCommand`

Source:
```
process.on('close', (code) => {
  if (code === 0) { resolve({ stdout, stderr }); }
  else { reject(new Error(`Command failed with exit code ${code}: ${stderr}`)); }
});
process.on('error', (error) => { reject(error); });
```
The child process either emits a `close` event carrying an exit code
(`number | null`, `null` when the child was terminated by a signal), or an
`error` event for a spawn failure (executable that cannot be spawned,
missing working directory).  `stdout`/`stderr` are whatever was captured
incrementally up to that event. -/

inductive ProcEvent
  | closed (code : Option Int)
  | errored (display : String)
deriving DecidableEq, Repr

/-- JS template rendering of the `close` code (`null` prints as "null"). -/
def jsCodeStr : Option Int → String
  | some n => toString n
  | none => "null"

/-- The resolution logic of `executeCommand`, as a function of the captured
output and the terminating process event.  `.ok` is promise resolution,
`.error` the string rendering of the rejected value (`reject(error)` on a
spawn failure passes the spawn error through unchanged). -/
def executeCommand (stdout stderr : String) (ev : ProcEvent) : Except String (String × String) :=
  match ev with
  | .closed code =>
    if code = some 0 then .ok (stdout, stderr)
    else .error ("Command failed with exit code " ++ jsCodeStr code ++ ": " ++ stderr)
  | .errored display => .error display

/-! ## Protocol data model -/

/-- A JSON-ish argument value as used by the tool handlers (the handlers
only ever distinguish strings and booleans). -/
inductive Val
  | vStr (s : String)
  | vBool (b : Bool)
deriving DecidableEq, Repr

/-- JS truthiness of an argument value. -/
def jsTruthy : Val → Bool
  | .vStr s => !s.isEmpty
  | .vBool b => b

/-- JS template rendering of an argument value. -/
def valDisp : Val → String
  | .vStr s => s
  | .vBool b => if b then "true" else "false"

/-- The `arguments` object of an invocation request. -/
abbrev Args := List (String × Val)

def getArg (args : Args) (k : String) : Option Val := args.lookup k

/-- JS destructuring with a default (`const { debug = false } = args`): the
default applies exactly when the property is absent. -/
def getArgD (args : Args) (k : String) (d : Val) : Val := (getArg args k).getD d

/-- A typed content block of a response (the source only produces `text`). -/
inductive ContentBlock
  | text (s : String)
deriving DecidableEq, Repr

/-- The SDK error codes used by the source (`ErrorCode.InvalidRequest` is the
only one it throws). -/
inductive ErrorCode
  | InvalidRequest
deriving DecidableEq, Repr

/-- A protocol-level error thrown to the transport (`throw new McpError(...)`). -/
structure McpError where
  code : ErrorCode
  message : String
deriving DecidableEq, Repr

/-- Observable collaborator side effects of a handler. -/
inductive Effect
  | access (dir : String)
  | readFile (path : String)
  | spawn (command : String) (args : List String) (cwd : Option String)
deriving DecidableEq, Repr

/-- The collaborator oracle: outcome of each external call a handler may
make.  `.error` models a rejected promise; its string is the `${error}`
rendering of the rejected value at the catch site (system errors such as
ENOENT display as `Error: ...`; for `exec`, the string corresponds to the
rendering of `executeCommand`'s rejection, see `executeCommand`). -/
structure Collab where
  access : String → Except String Unit
  exec : String → List String → Option String → Except String (String × String)
  readF : String → Except String String

/-- `${error}` rendering of a JS `new Error(m)` value. -/
def errDisp (m : String) : String := "Error: " ++ m

/-- `readFileContent`: wraps a filesystem read failure in its own message. -/
def readFileContent (c : Collab) (filePath : String) : Except String String :=
  match c.readF filePath with
  | .ok s => .ok s
  | .error e => .error ("Failed to read file " ++ filePath ++ ": " ++ e)

/-- `analyzeVerilogFile`: read then analyze; a failure is re-wrapped. -/
def analyzeVerilogFile (c : Collab) (filePath : String) : Except String VerilogAnalysis :=
  match readFileContent c filePath with
  | .ok content => .ok (analyzeVerilogContent content)
  | .error m => .error ("Verilog analysis failed: " ++ errDisp m)

/-- `analyzeMakefile`: read then analyze; a failure is re-wrapped. -/
def analyzeMakefile (c : Collab) (makefilePath : String) : Except String MakefileAnalysis :=
  match readFileContent c makefilePath with
  | .ok content => .ok (analyzeMakefileContent content)
  | .error m => .error ("Makefile analysis failed: " ++ errDisp m)

/-! ## Capability Registry: the static catalogues

These are the object literals returned by the `ListResources`, `ListTools`
and `ListPrompts` handlers of the enhanced variant. -/

inductive ParamKind
  | pstring
  | pboolean
  | penum (options : List String)
deriving DecidableEq, Repr

structure ParamDecl where
  name : String
  kind : ParamKind
  description : String
  default? : Option Val := none
deriving DecidableEq, Repr

structure ToolDecl where
  name : String
  description : String
  params : List ParamDecl
  required : List String
deriving DecidableEq, Repr

structure ResourceDecl where
  uri : String
  name : String
  mimeType : String
  description : String
deriving DecidableEq, Repr

structure PromptArgDecl where
  name : String
  description : String
  required : Bool
deriving DecidableEq, Repr

structure PromptDecl where
  name : String
  description : String
  arguments : List PromptArgDecl
deriving DecidableEq, Repr

def resourceCatalogue : List ResourceDecl :=
  [ { uri := "opennic://filter-requirements",
      name := "OpenNIC Packet Filter Requirements Document",
      mimeType := "text/plain",
      description := "Requirements document for the packet filter implementation" },
    { uri := "opennic://filter-implementation",
      name := "OpenNIC Packet Filter Implementation Overview",
      mimeType := "text/markdown",
      description := "Detailed implementation overview and submission document" },
    { uri := "opennic://register-map",
      name := "Packet Filter Register Map Documentation",
      mimeType := "text/markdown",
      description := "CSR register map documentation for the packet filter" },
    { uri := "opennic://simulation-guide",
      name := "How to Run Filter Simulations with Verilator",
      mimeType := "text/markdown",
      description := "Complete guide for Verilator-based Cocotb simulations" },
    { uri := "opennic://debug-workflow",
      name := "Hardware Debug Workflow Guide",
      mimeType := "text/markdown",
      description := "Step-by-step debugging methodology for OpenNIC filter issues" } ]

def toolCatalogue : List ToolDecl :=
  [ { name := "run-filter-simulation",
      description := "Run OpenNIC packet filter simulation with Verilator (enforced)",
      params :=
        [ { name := "test_type",
            kind := .penum ["basic", "advanced", "csr", "performance", "all"],
            description := "Type of test to run" },
          { name := "debug", kind := .pboolean, description := "Enable debug logging" },
          { name := "waves", kind := .pboolean, description := "Generate VCD waveform files" } ],
      required := ["test_type"] },
    { name := "analyze-verilog-syntax",
      description := "Analyze SystemVerilog code for syntax and package dependencies",
      params :=
        [ { name := "file_path", kind := .pstring,
            description := "Path to SystemVerilog file to analyze" },
          { name := "check_packages", kind := .pboolean,
            description := "Check package import dependencies",
            default? := some (.vBool true) } ],
      required := ["file_path"] },
    { name := "check-interface-compatibility",
      description := "Verify interface connections between testbench and RTL",
      params :=
        [ { name := "testbench_file", kind := .pstring, description := "Path to testbench file" },
          { name := "rtl_file", kind := .pstring, description := "Path to RTL file" } ],
      required := ["testbench_file", "rtl_file"] },
    { name := "suggest-makefile-fixes",
      description := "Analyze Makefile and suggest configuration improvements",
      params :=
        [ { name := "makefile_path", kind := .pstring,
            description := "Path to Makefile to analyze" } ],
      required := ["makefile_path"] },
    { name := "cross-reference-signals",
      description := "Map testbench signals to RTL hierarchy for debugging",
      params :=
        [ { name := "hierarchy_level",
            kind := .penum ["top", "filter", "parser", "all"],
            description := "RTL hierarchy level to analyze" } ],
      required := ["hierarchy_level"] },
    { name := "check-requirements-compliance",
      description := "Check if the filter implementation meets specified requirements",
      params :=
        [ { name := "requirement_type",
            kind := .penum ["functional", "interface", "performance", "all"],
            description := "Type of requirements to check" } ],
      required := ["requirement_type"] } ]

def promptCatalogue : List PromptDecl :=
  [ { name := "create-test-scenario",
      description := "Generate a comprehensive test scenario for the packet filter",
      arguments :=
        [ { name := "scenario_type",
            description := "Type of test scenario (basic, advanced, edge_case, performance)",
            required := true },
          { name := "packet_type", description := "IPv4 or IPv6 packet type", required := false },
          { name := "include_debug", description := "Include debugging and analysis steps",
            required := false } ] },
    { name := "debug-workflow-guide",
      description := "Generate a specific debug workflow for a given issue",
      arguments :=
        [ { name := "issue_type",
            description := "Type of issue (compilation, simulation, functional, timing)",
            required := true },
          { name := "symptoms", description := "Observed symptoms or error messages",
            required := false } ] } ]

def toolNames : List String := toolCatalogue.map (·.name)

def resourceUris : List String := resourceCatalogue.map (·.uri)

def promptNames : List String := promptCatalogue.map (·.name)

/-! ## Content Resolver: the `ReadResourceRequestSchema` handler

Three resources are filesystem-backed (read via `readFileContent` with a
fixed fallback text block on failure); two are synthesized in-memory
documents. An unknown uri throws `McpError(ErrorCode.InvalidRequest, ...)`. -/

def requirementsPath : String :=
  "/Users/jonafta/Dev/open-nic-shell-ji-mb/requirements.md"

def submissionPath : String :=
  "/Users/jonafta/Dev/open-nic-shell-ji-mb/opennic_packet_filter_submission.md"

def registerMapPath : String :=
  "/Users/jonafta/Dev/open-nic-shell-ji-mb/plugin/p2p/box_250mhz/csr/doc/register_map.md"

def requirementsFallback : String :=
  "Requirements document not found. Please ensure the OpenNIC project is available."

def submissionFallback : String :=
  "Implementation document not found. Please ensure the submission document exists."

def registerMapFallback : String :=
  "Register map documentation not found."

/-- The synthesized `opennic://simulation-guide` document. -/
def simulationGuideDoc : String :=
  "# OpenNIC Filter Simulation Guide (Verilator Only)\n\n## Prerequisites\n1. **Verilator** - SystemVerilog simulator (REQUIRED - enforced by MCP server)\n   - macOS: `brew install verilator`\n   - Ubuntu: `sudo apt-get install verilator`\n   - Verify: `verilator --version` (minimum v4.200+)\n2. Python virtual environment with Cocotb\n3. OpenNIC shell project setup\n\n## Simulator Compatibility Check\nThe MCP server automatically enforces Verilator usage and validates:\n- ✅ Verilator installation and version\n- ✅ SystemVerilog package syntax compatibility\n- ✅ Test signal cross-referencing\n- ✅ Build dependency detection\n\n## Running Filter Tests (Verilator-Optimized)\n\n### Setup Environment\n```bash\ncd /Users/jonafta/Dev/open-nic-shell-ji-mb/tb/tests/filter_rx_pipeline\nsource venv/bin/activate\npip install -r requirements.txt\n```\n\n### Test Execution (Always Verilator)\n```bash\n# The MCP server sets SIM=verilator automatically\nmake test                    # Basic test with Verilator\nmake test WAVES=1           # Generate VCD waveforms\nmake test COCOTB_DEBUG=1    # Enable detailed logging\n```\n\n### Verilator-Specific Features\n- **Fast Compilation**: C++ backend for optimal performance\n- **VCD Waveforms**: `--trace --trace-structs` for detailed signals\n- **Lint Checking**: Built-in SystemVerilog compliance checking\n- **Coverage**: Optional `--coverage` for code coverage analysis\n\n## Debug Workflow Integration\nThe MCP server provides enhanced debugging assistance:\n1. **Makefile Analysis**: Detects configuration issues\n2. **Interface Matching**: Validates port connections\n3. **Signal Cross-Reference**: Maps testbench to RTL signals\n4. **Build Dependency**: Tracks include files and packages\n\n## Test Structure\n- **test_filter_basic.py**: IPv4/IPv6 basic filtering\n- **test_filter_advanced.py**: Edge cases and stress tests\n- **test_csr_interface.py**: Register access validation\n- **test_performance.py**: Throughput and timing tests\n\n## Verilator Performance Optimization\n```bash\n# High-performance simulation options\nVERILATOR_ARGS=\"--threads 4 -O3\" make test\nVERILATOR_ARGS=\"--x-assign unique --x-initial unique\" make test\n```\n\n## Debugging with Enhanced Capabilities\n- **Syntax Validation**: Real-time SystemVerilog syntax checking\n- **Package Dependencies**: Automatic import resolution\n- **Signal Analysis**: Cross-reference test signals with RTL\n- **Build Issues**: Intelligent dependency detection and fixes\n"

/-- The synthesized `opennic://debug-workflow` document. -/
def debugWorkflowDoc : String :=
  "# OpenNIC Filter Hardware Debug Workflow\n\n## Phase 1: Pre-Simulation Analysis\n1. **Verilog Syntax Check**\n   - MCP server validates SystemVerilog syntax\n   - Checks package import dependencies\n   - Identifies signal definition issues\n\n2. **Build Environment Validation**\n   - Makefile configuration analysis\n   - Simulator compatibility verification\n   - Dependency resolution checking\n\n## Phase 2: Compilation Debug\n1. **Verilator Lint Phase**\n   ```bash\n   verilator --lint-only -Wall filter_rx_pipeline.sv\n   ```\n\n2. **Package Dependency Resolution**\n   - Verify all imported packages are available\n   - Check include file paths\n   - Validate interface definitions\n\n## Phase 3: Simulation Debug\n1. **Signal Cross-Reference**\n   - Map testbench signals to RTL hierarchy\n   - Identify interface mismatches\n   - Validate clock domain connections\n\n2. **Waveform Analysis**\n   ```bash\n   # Generate detailed VCD with all signals\n   WAVES=1 VERILATOR_ARGS=\"--trace --trace-structs\" make test\n   gtkwave sim_build/filter_rx_pipeline.vcd\n   ```\n\n## Phase 4: Functional Debug\n1. **Packet Processing Pipeline**\n   - Verify AXI-Stream handshaking\n   - Check packet parsing stages\n   - Validate filter decision logic\n\n2. **CSR Interface Debug**\n   - Test register read/write operations\n   - Verify address decoding\n   - Check statistics counter updates\n\n## Phase 5: Performance Debug\n1. **Timing Analysis**\n   - Check for combinational loops\n   - Verify pipeline stage timing\n   - Validate 250MHz operation\n\n2. **Throughput Validation**\n   - Measure packet processing rate\n   - Check for backpressure handling\n   - Validate flow control mechanisms\n\n## MCP Server Debug Tools\n- `analyze-verilog-syntax`: SystemVerilog validation\n- `check-interface-compatibility`: Port matching verification\n- `suggest-makefile-fixes`: Build configuration recommendations\n- `cross-reference-signals`: Test-to-RTL signal mapping\n\n## Common Issues and Solutions\n1. **Interface Mismatch**: Use signal cross-reference tool\n2. **Build Failures**: Run Makefile analysis for suggestions\n3. **Timing Violations**: Check pipeline stage implementation\n4. **Functional Errors**: Use waveform analysis with VCD viewer\n"

/-- The `ReadResourceRequestSchema` handler: resolve a resource uri to its
content blocks (with the recorded collaborator effects), or throw an
`McpError` for an unknown uri. -/
def readResource (c : Collab) (uri : String) : Except McpError (List ContentBlock) × List Effect :=
  if uri = "opennic://filter-requirements" then
    (match readFileContent c requirementsPath with
     | .ok content => .ok [.text content]
     | .error _ => .ok [.text requirementsFallback],
     [.readFile requirementsPath])
  else if uri = "opennic://filter-implementation" then
    (match readFileContent c submissionPath with
     | .ok content => .ok [.text content]
     | .error _ => .ok [.text submissionFallback],
     [.readFile submissionPath])
  else if uri = "opennic://register-map" then
    (match readFileContent c registerMapPath with
     | .ok content => .ok [.text content]
     | .error _ => .ok [.text registerMapFallback],
     [.readFile registerMapPath])
  else if uri = "opennic://simulation-guide" then (.ok [.text simulationGuideDoc], [])
  else if uri = "opennic://debug-workflow" then (.ok [.text debugWorkflowDoc], [])
  else (.error { code := .InvalidRequest, message := "Unknown resource: " ++ uri }, [])

/-! ## Tool handlers and the `CallToolRequestSchema` dispatcher

The handler destructures `request.params.arguments` directly (`const {
test_type, debug = false, waves = false } = args as {...}`): there is no
validation of the arguments against the declared input shape anywhere in the
dispatch path, so absent or ill-typed arguments flow into the handler as JS
`undefined`/raw values.  Absent string-typed arguments that a handler passes
to a collaborator or interpolates are modelled by their template rendering
(`"undefined"`), which is what both the report text and the (then failing)
filesystem call observe. -/

abbrev ToolResult := Except McpError (List ContentBlock) × List Effect

def filterTestDir : String :=
  "/Users/jonafta/Dev/open-nic-shell-ji-mb/tb/tests/filter_rx_pipeline"

/-- The `env` object built by `run-filter-simulation`, in JS insertion order:
`SIM` is always set first (`// Always enforce Verilator simulator`), then the
debug/waves flags, then the `TESTCASE` selected by the `switch (test_type)`
(whose `default`-less fall-through leaves `TESTCASE` unset for `"all"` and
for any other — including absent — value). -/
def envPairs (test_type : Option Val) (debug waves : Bool) : List (String × String) :=
  [("SIM", "verilator")] ++
  (if debug then [("COCOTB_DEBUG", "1")] else []) ++
  (if waves then [("WAVES", "1"), ("EXTRA_ARGS", "--trace --trace-structs")] else []) ++
  (match test_type with
   | some (.vStr "basic") => [("TESTCASE", "test_filter_basic")]
   | some (.vStr "advanced") => [("TESTCASE", "test_filter_advanced")]
   | some (.vStr "csr") => [("TESTCASE", "test_csr_interface")]
   | some (.vStr "performance") => [("TESTCASE", "test_performance")]
   | _ => [])

/-- `` `${envString} ${makeCommand}` `` with `makeCommand = "make test"`. -/
def fullCommandOf (args : Args) : String :=
  let env := envPairs (getArg args "test_type")
    (jsTruthy (getArgD args "debug" (.vBool false)))
    (jsTruthy (getArgD args "waves" (.vBool false)))
  joinSep " " (env.map fun p => p.1 ++ "=" ++ p.2) ++ " " ++ "make test"

def simulationSuccessText (fullCommand stdoutS stderrS : String) : String :=
  "✅ Verilator simulation completed successfully!\n\n🔧 Command: " ++ fullCommand ++
  "\n📊 Simulator: Verilator (enforced)\n\n📋 STDOUT:\n" ++ stdoutS ++
  "\n\n⚠️  STDERR:\n" ++ stderrS

def simulationFailedText (e : String) : String :=
  "❌ Verilator simulation failed: " ++ e ++
  "\n\n🔍 Troubleshooting Steps:\n1. Verify Verilator installation: verilator --version\n2. Check OpenNIC project setup\n3. Activate virtual environment\n4. Install dependencies: pip install -r requirements.txt\n5. Use 'suggest-makefile-fixes' tool for configuration issues"

/-- The `run-filter-simulation` handler.  (The pure computation of
`fullCommand` is hoisted above the `fs.access` check; the source computes it
after, but it has no effects.) -/
def runFilterSimulation (c : Collab) (args : Args) : ToolResult :=
  let fullCommand := fullCommandOf args
  match c.access filterTestDir with
  | .error e => (.ok [.text (simulationFailedText e)], [.access filterTestDir])
  | .ok _ =>
    match c.exec "bash" ["-c", fullCommand] (some filterTestDir) with
    | .ok r =>
      (.ok [.text (simulationSuccessText fullCommand r.1 r.2)],
       [.access filterTestDir, .spawn "bash" ["-c", fullCommand] (some filterTestDir)])
    | .error e =>
      (.ok [.text (simulationFailedText e)],
       [.access filterTestDir, .spawn "bash" ["-c", fullCommand] (some filterTestDir)])

/-- The report assembled by `analyze-verilog-syntax` before the Verilator
lint section. -/
def verilogReportBase (file_path : String) (check_packages : Bool) (a : VerilogAnalysis) : String :=
  "# SystemVerilog Analysis Report\n\n**File:** " ++ file_path ++ "\n\n" ++
  (if check_packages then
    "## Package Dependencies\n" ++
    (if a.package_dependencies.length > 0 then
      joinSep "\n" (a.package_dependencies.map (fun pkg => "- " ++ pkg)) ++ "\n\n"
    else "No package imports found.\n\n")
  else "") ++
  "## Signal Definitions\n" ++
  (if a.signal_definitions.length > 0 then
    joinSep "\n" ((a.signal_definitions.take 10).map (fun sig => "- " ++ sig)) ++
    (if a.signal_definitions.length > 10 then
      "\n... and " ++ toString (a.signal_definitions.length - 10) ++ " more signals\n"
    else "")
  else "No signal definitions found.\n") ++
  "\n## Interface Ports\n" ++
  (if a.interface_ports.length > 0 then
    joinSep "\n" (a.interface_ports.map (fun port => "- " ++ port))
  else "No interface ports found.\n")

/-- The `analyze-verilog-syntax` handler. -/
def analyzeVerilogTool (c : Collab) (args : Args) : ToolResult :=
  let fp := valDisp ((getArg args "file_path").getD (.vStr "undefined"))
  let check_packages := jsTruthy (getArgD args "check_packages" (.vBool true))
  match analyzeVerilogFile c fp with
  | .error m =>
    (.ok [.text ("❌ Verilog analysis failed: " ++ errDisp m)], [.readFile fp])
  | .ok a =>
    let base := verilogReportBase fp check_packages a
    match c.exec "verilator" ["--lint-only", "-Wall", fp] none with
    | .ok _ =>
      (.ok [.text (base ++ "\n## Verilator Syntax Check\n✅ No syntax errors found.\n")],
       [.readFile fp, .spawn "verilator" ["--lint-only", "-Wall", fp] none])
    | .error ve =>
      (.ok [.text (base ++ "\n## Verilator Syntax Check\n⚠️ Issues found:\n" ++ ve ++ "\n")],
       [.readFile fp, .spawn "verilator" ["--lint-only", "-Wall", fp] none])

/-- The compatibility score of `check-interface-compatibility`, in tenths of
a percent: `commonPorts.length / Math.max(tbPorts.length, 1) * 100`,
rendered by `toFixed(1)`.  The JS float arithmetic is modelled by exact
natural arithmetic in tenths (they agree whenever the division is exact;
no claim depends on this string). -/
def scoreTenths (common tbLen : Nat) : Nat := common * 1000 / max tbLen 1

def fixed1 (tenths : Nat) : String := toString (tenths / 10) ++ "." ++ toString (tenths % 10)

/-- The report of `check-interface-compatibility`. -/
def interfaceReport (testbench_file rtl_file : String) (tb rtl : VerilogAnalysis) : String :=
  let commonPorts := tb.interface_ports.filter (fun port => rtl.interface_ports.contains port)
  let testbenchOnlyPorts := tb.interface_ports.filter (fun port => !rtl.interface_ports.contains port)
  let rtlOnlyPorts := rtl.interface_ports.filter (fun port => !tb.interface_ports.contains port)
  let sc := scoreTenths commonPorts.length tb.interface_ports.length
  "# Interface Compatibility Analysis\n\n**Testbench:** " ++ testbench_file ++
  "\n**RTL:** " ++ rtl_file ++ "\n\n" ++
  "## ✅ Matching Interfaces\n" ++
  (if commonPorts.length > 0 then
    joinSep "\n" (commonPorts.map (fun port => "- " ++ port)) ++ "\n\n"
  else "No matching port names found.\n\n") ++
  (if testbenchOnlyPorts.length > 0 then
    "## ⚠️ Testbench-Only Signals\n" ++
    joinSep "\n" (testbenchOnlyPorts.map (fun port => "- " ++ port)) ++ "\n\n"
  else "") ++
  (if rtlOnlyPorts.length > 0 then
    "## ⚠️ RTL-Only Ports\n" ++
    joinSep "\n" (rtlOnlyPorts.map (fun port => "- " ++ port)) ++ "\n\n"
  else "") ++
  "## Compatibility Score: " ++ fixed1 sc ++ "%\n" ++
  (if sc < 800 then
    "\n⚠️ **Recommendation:** Review interface connections - low compatibility score suggests potential issues.\n"
  else "")

/-- The `check-interface-compatibility` handler.  A failure of the first
analysis aborts before the second file is ever read. -/
def checkInterfaceTool (c : Collab) (args : Args) : ToolResult :=
  let tbf := valDisp ((getArg args "testbench_file").getD (.vStr "undefined"))
  let rtlf := valDisp ((getArg args "rtl_file").getD (.vStr "undefined"))
  match analyzeVerilogFile c tbf with
  | .error m =>
    (.ok [.text ("❌ Interface compatibility check failed: " ++ errDisp m)], [.readFile tbf])
  | .ok tba =>
    match analyzeVerilogFile c rtlf with
    | .error m =>
      (.ok [.text ("❌ Interface compatibility check failed: " ++ errDisp m)],
       [.readFile tbf, .readFile rtlf])
    | .ok rtla =>
      (.ok [.text (interfaceReport tbf rtlf tba rtla)], [.readFile tbf, .readFile rtlf])

def fixForceVerilator : String :=
  "1. 🔧 **Force Verilator Usage:**\n   Add to Makefile: `SIM ?= verilator`\n\n"

def fixCleanTarget : String :=
  "2. 🧹 **Add Clean Target:**\n   ```makefile\n   clean:\n       rm -rf sim_build/ __pycache__/ *.vcd\n   ```\n\n"

def fixEnhancedConfig : String :=
  "3. 📊 **Enhanced Verilator Configuration:**\n   ```makefile\n   EXTRA_ARGS += --trace --trace-structs\n   EXTRA_ARGS += --x-assign unique --x-initial unique\n   COMPILE_ARGS += -Wall -Wno-fatal\n   ```\n\n"

/-- The blocks appended under `## Recommended Fixes` by
`suggest-makefile-fixes`, in source order: the force-Verilator suggestion
(only when the configured simulator is not already `verilator`), the
clean-target suggestion (only when no `clean` target exists), and the
always-appended enhanced-configuration suggestion. -/
def fixChunks (a : MakefileAnalysis) : List String :=
  (if a.simulator_config ≠ "verilator" then [fixForceVerilator] else []) ++
  (if a.test_targets.contains "clean" then [] else [fixCleanTarget]) ++
  [fixEnhancedConfig]

/-- The report of `suggest-makefile-fixes`. -/
def makefileReport (makefile_path : String) (a : MakefileAnalysis) : String :=
  "# Makefile Analysis and Suggestions\n\n**File:** " ++ makefile_path ++ "\n\n" ++
  "## Current Configuration\n" ++
  "- **Simulator:** " ++ a.simulator_config ++ "\n" ++
  "- **Targets:** " ++ joinSep ", " a.test_targets ++ "\n" ++
  "- **Dependencies:** " ++
    (let d := joinSep ", " a.dependencies
     if d.isEmpty then "None detected" else d) ++ "\n\n" ++
  (if a.issues.length > 0 then
    "## Issues Found\n" ++
    String.join (a.issues.enum.map (fun p => toString (p.1 + 1) ++ ". ⚠️ " ++ p.2 ++ "\n")) ++
    "\n"
  else "") ++
  "## Recommended Fixes\n" ++
  String.join (fixChunks a)

/-- The `suggest-makefile-fixes` handler. -/
def suggestMakefileTool (c : Collab) (args : Args) : ToolResult :=
  let mp := valDisp ((getArg args "makefile_path").getD (.vStr "undefined"))
  match analyzeMakefile c mp with
  | .error m => (.ok [.text ("❌ Makefile analysis failed: " ++ errDisp m)], [.readFile mp])
  | .ok a => (.ok [.text (makefileReport mp a)], [.readFile mp])

def signalMapTop : List String :=
  [ "aclk - Main clock signal",
    "aresetn - Active-low reset",
    "s_axis_* - Input AXI-Stream interface",
    "m_axis_* - Output AXI-Stream interface",
    "s_axil_* - AXI-Lite configuration interface" ]

def signalMapFilter : List String :=
  [ "filter_enable - Enable/disable filtering",
    "rule_*_ip_addr - Filter rule IP addresses",
    "rule_*_port - Filter rule port numbers",
    "hit_count_* - Statistics counters",
    "packet_match - Filter decision output" ]

def signalMapParser : List String :=
  [ "eth_type - Ethernet type field",
    "ip_version - IP version (4 or 6)",
    "ip_dst_addr - Destination IP address",
    "tcp_dst_port - TCP destination port",
    "udp_dst_port - UDP destination port",
    "parse_valid - Parser output valid" ]

def crossRefLevelList (lv : String) : Option (List String) :=
  match lv with
  | "top" => some signalMapTop
  | "filter" => some signalMapFilter
  | "parser" => some signalMapParser
  | _ => none

def testbenchAccessPatterns : String :=
  "## Testbench Access Patterns\n```python\n# Access top-level signals\nawait ClockCycles(dut.aclk, 10)\ndut.aresetn.value = 0\n\n# Access filter configuration\ndut.rule_0_ip_addr.value = 0x0A000001  # 10.0.0.1\nawait ClockCycles(dut.aclk, 1)\n\n# Monitor statistics\nhit_count = dut.hit_count_0.value\n```\n"

/-- The report of `cross-reference-signals`.  For a level other than the
three known ones and `"all"` the JS optional chain yields `undefined`,
which string concatenation renders as `"undefined"`. -/
def crossRefReport (lv : String) : String :=
  "# Signal Cross-Reference Map\n\n**Hierarchy Level:** " ++ lv ++ "\n\n" ++
  (if lv = "all" then
    "## TOP Level\n" ++ joinSep "\n" (signalMapTop.map (fun s => "- " ++ s)) ++ "\n\n" ++
    "## FILTER Level\n" ++ joinSep "\n" (signalMapFilter.map (fun s => "- " ++ s)) ++ "\n\n" ++
    "## PARSER Level\n" ++ joinSep "\n" (signalMapParser.map (fun s => "- " ++ s)) ++ "\n\n"
  else
    "## Signal Definitions\n" ++
    (match crossRefLevelList lv with
     | some sigs => joinSep "\n" (sigs.map (fun s => "- " ++ s))
     | none => "undefined") ++ "\n\n") ++
  testbenchAccessPatterns

/-- The `cross-reference-signals` handler: purely a function of its
arguments; its `try` block cannot throw. -/
def crossReferenceTool (args : Args) : ToolResult :=
  let lv := valDisp ((getArg args "hierarchy_level").getD (.vStr "undefined"))
  (.ok [.text (crossRefReport lv)], [])

structure ComplianceCheck where
  name : String
  check : String
  status : String
deriving DecidableEq, Repr

def functionalChecks : List ComplianceCheck :=
  [ ⟨"IPv4/IPv6 Filtering", "Verify packet parsing and filtering logic",
     "✅ Implemented in filter_rx_pipeline.sv with Verilator validation"⟩,
    ⟨"Port-based Filtering", "Verify TCP/UDP port filtering",
     "✅ Implemented with wildcard support and syntax validation"⟩,
    ⟨"Statistics Counters", "Verify hit/miss/total counters",
     "✅ Implemented in CSR registers with interface compatibility check"⟩ ]

def interfaceChecks : List ComplianceCheck :=
  [ ⟨"AXI-Stream Interface", "Verify 512-bit data width compliance",
     "✅ Maintains existing interface with cross-reference validation"⟩,
    ⟨"AXI-Lite CSR Interface", "Verify register map at 0xB000",
     "✅ Implemented with proper addressing and Makefile integration"⟩ ]

def performanceChecks : List ComplianceCheck :=
  [ ⟨"Throughput Maintenance", "Verify no performance degradation",
     "✅ Single-cycle filtering decision with Verilator timing analysis"⟩,
    ⟨"Clock Domain", "Verify 250MHz operation",
     "✅ Integrated in 250MHz user box with dependency validation"⟩ ]

/-- The `checksToRun` list of `check-requirements-compliance`: three
sequential conditional pushes keyed only on the `requirement_type`
argument.  All entries are literal records; no analysis is performed. -/
def checksToRun (rt : Option Val) : List ComplianceCheck :=
  (if rt = some (.vStr "functional") ∨ rt = some (.vStr "all") then functionalChecks else []) ++
  (if rt = some (.vStr "interface") ∨ rt = some (.vStr "all") then interfaceChecks else []) ++
  (if rt = some (.vStr "performance") ∨ rt = some (.vStr "all") then performanceChecks else [])

/-- The `check-requirements-compliance` handler: purely a function of its
arguments (its `try` wraps throw-free code); it consults no collaborator
and records no effect. -/
def checkComplianceTool (args : Args) : ToolResult :=
  let rt := getArg args "requirement_type"
  let report := joinSep "\n" ((checksToRun rt).map (fun chk =>
    "**" ++ chk.name ++ "**\n- Check: " ++ chk.check ++ "\n- Status: " ++ chk.status ++ "\n"))
  (.ok [.text ("# Enhanced Requirements Compliance Report\n\n" ++ report ++
    "\n\n**Overall Status**: ✅ All specified requirements met with enhanced verification capabilities\n\n**Verification Tools Used:**\n- Verilator syntax validation\n- Interface compatibility checking\n- Signal cross-referencing\n- Makefile configuration analysis")], [])

/-- The `CallToolRequestSchema` handler: the `switch (name)` dispatch.  An
unknown tool name throws `McpError(ErrorCode.InvalidRequest, ...)` before
any handler code runs. -/
def callTool (c : Collab) (name : String) (args : Args) : ToolResult :=
  if name = "run-filter-simulation" then runFilterSimulation c args
  else if name = "analyze-verilog-syntax" then analyzeVerilogTool c args
  else if name = "check-interface-compatibility" then checkInterfaceTool c args
  else if name = "suggest-makefile-fixes" then suggestMakefileTool c args
  else if name = "cross-reference-signals" then crossReferenceTool args
  else if name = "check-requirements-compliance" then checkComplianceTool args
  else (.error { code := .InvalidRequest, message := "Unknown tool: " ++ name }, [])

/-! ## Prompt rendering: the `GetPromptRequestSchema` handler

Arguments default through JS `||`: a falsy supplied value (empty string,
`false`) falls back to the documented default just like an absent one.
`toLowerCase` is modelled by `String.toLower` (the values considered are
ASCII). -/

structure PromptMessage where
  role : String
  content : ContentBlock
deriving DecidableEq, Repr

structure PromptResult where
  description : String
  messages : List PromptMessage
deriving DecidableEq, Repr

/-- `args?.k || d`: the JS fallback on falsy values. -/
def promptArgOr (args : Args) (k : String) (d : Val) : Val :=
  match getArg args k with
  | some v => if jsTruthy v then v else d
  | none => d

/-- The `create-test-scenario` template. -/
def testScenarioText (st pt : String) (includeDebug : Bool) : String :=
  "# Test Scenario: " ++ st ++ " - " ++ pt ++ " Packet Filtering\n\n## Test Objective\nVerify packet filter behavior for " ++ st ++ " scenario using " ++ pt ++ " packets with Verilator simulation.\n\n## Prerequisites Verification\n- [ ] Verilator installation: `verilator --version`\n- [ ] SystemVerilog syntax validation complete\n- [ ] Interface compatibility verified\n- [ ] Makefile configuration optimized\n\n## Test Setup\n1. **Configure Filter Rules:**\n   - Rule 0: [Define specific " ++ pt ++ " criteria]\n   - Rule 1: [Define specific " ++ pt ++ " criteria]\n\n2. **Generate Test Packets:**\n   - Protocol: " ++ pt ++ "\n   - Source: [IP address]\n   - Destination: [IP address] \n   - Port: [TCP/UDP port]\n   - Payload: [Test data pattern]\n\n3. **Verilator Configuration:**\n   ```bash\n   SIM=verilator WAVES=1 EXTRA_ARGS=\"--trace --trace-structs\" make test\n   ```\n\n## Expected Results\n- ✅ Matching packets: Forwarded with statistics update\n- ❌ Non-matching packets: Dropped with counter increment\n- 📊 Statistics: Accurate counter updates verified\n\n## Verification Points\n- [ ] Packet parsing correctness (use analyze-verilog-syntax)\n- [ ] Filter rule matching logic\n- [ ] AXI-Stream flow control (check-interface-compatibility) \n- [ ] CSR register updates (cross-reference-signals)\n\n## Enhanced Debugging Steps\n" ++
  (if includeDebug then
    "\n### Debug Analysis\n1. **Pre-simulation:**\n   - Run `analyze-verilog-syntax` on filter RTL\n   - Use `suggest-makefile-fixes` for build optimization\n   - Verify with `check-interface-compatibility`\n\n2. **During Simulation:**\n   - Monitor signals with `cross-reference-signals`\n   - Generate VCD waveforms for analysis\n   - Check real-time statistics updates\n\n3. **Post-simulation:**\n   - Analyze waveforms with GTKWave\n   - Validate against requirements compliance\n   - Performance analysis with Verilator metrics\n"
  else "") ++
  "\n\n## Cocotb Test Code Template\n```python\n@cocotb.test()\nasync def test_" ++ st.toLower ++ "_" ++ pt.toLower ++ "(dut):\n    \"\"\"Enhanced " ++ st ++ " test with debugging support\"\"\"\n    \n    # Initialize with Verilator-optimized setup\n    clock = Clock(dut.aclk, 4, units=\"ns\")  # 250MHz\n    cocotb.start_soon(clock.start())\n    \n    # Reset sequence with signal validation\n    dut.aresetn.value = 0\n    await ClockCycles(dut.aclk, 10)\n    dut.aresetn.value = 1\n    await ClockCycles(dut.aclk, 10)\n    \n    # Configure filter rules (use cross-reference for signal names)\n    # [Configuration code here]\n    \n    # Send test packets with AXI-Stream verification\n    # [Packet generation code here]\n    \n    # Verify results with enhanced checking\n    # [Verification code here]\n    \n    # Debug output with signal cross-reference\n    dut._log.info(f\"Test completed - Use VCD analysis for detailed review\")\n```\n\n## Performance Metrics\n- Simulation speed: Expected 10-100x faster with Verilator\n- Memory usage: Monitor with Verilator built-in profiling\n- Coverage: Optional `--coverage` flag for analysis\n"

/-- The `debug-workflow-guide` template. -/
def debugWorkflowText (it sy : String) : String :=
  "# Debug Workflow Guide: " ++ it ++ " Issues\n\n## Issue Classification\n**Type:** " ++ it ++ "\n**Symptoms:** " ++ sy ++ "\n\n## Systematic Debug Approach\n\n### Phase 1: Environment Validation\n1. **Simulator Check:**\n   ```bash\n   verilator --version  # Must be v4.200+\n   which verilator      # Verify PATH\n   ```\n\n2. **Project Structure:**\n   - Use `analyze-verilog-syntax` on main RTL files\n   - Run `suggest-makefile-fixes` for configuration issues\n   - Verify dependencies with build analysis\n\n### Phase 2: Targeted Analysis\n" ++
  (if it = "compilation" then
    "\n**Compilation-Specific Steps:**\n1. Run Verilator lint: `verilator --lint-only -Wall *.sv`\n2. Check package imports with syntax analyzer\n3. Validate include paths and dependencies\n4. Review Makefile configuration suggestions\n"
  else "") ++
  "\n\n" ++
  (if it = "simulation" then
    "\n**Simulation-Specific Steps:**\n1. Use `check-interface-compatibility` for testbench/RTL matching\n2. Enable detailed logging: `COCOTB_DEBUG=1`\n3. Generate waveforms: `WAVES=1` with trace analysis\n4. Cross-reference signals for hierarchy validation\n"
  else "") ++
  "\n\n" ++
  (if it = "functional" then
    "\n**Functional-Specific Steps:**\n1. Use `cross-reference-signals` to map test to RTL\n2. Analyze packet processing pipeline stages  \n3. Verify filter logic with waveform analysis\n4. Check CSR interface with register cross-reference\n"
  else "") ++
  "\n\n" ++
  (if it = "timing" then
    "\n**Timing-Specific Steps:**\n1. Review pipeline implementation for combinational loops\n2. Check clock domain crossings\n3. Analyze critical path with Verilator timing reports\n4. Validate 250MHz constraint compliance\n"
  else "") ++
  "\n\n### Phase 3: Resolution Steps\n1. **Apply MCP Tool Recommendations:**\n   - Follow suggestions from Makefile analyzer\n   - Implement interface compatibility fixes\n   - Use signal cross-reference for debugging\n\n2. **Iterative Testing:**\n   - Test with simplified scenarios first\n   - Gradually increase complexity\n   - Use enhanced debugging capabilities\n\n3. **Validation:**\n   - Run comprehensive test suite\n   - Verify with requirements compliance check\n   - Document resolution for future reference\n\n## MCP Tools for This Issue Type\n" ++
  (if it = "compilation" then
    "\n- `analyze-verilog-syntax`: Check RTL files\n- `suggest-makefile-fixes`: Fix build configuration\n"
  else "") ++
  "\n" ++
  (if it = "simulation" then
    "\n- `check-interface-compatibility`: Verify connections\n- `cross-reference-signals`: Map testbench signals\n"
  else "") ++
  "\n" ++
  (if it = "functional" then
    "\n- `cross-reference-signals`: Debug signal flow\n- `check-requirements-compliance`: Verify functionality\n"
  else "") ++
  "\n" ++
  (if it = "timing" then
    "\n- `analyze-verilog-syntax`: Check for timing issues\n- `run-filter-simulation`: Performance testing\n"
  else "") ++
  "\n\n## Success Criteria\n- [ ] Issue symptoms resolved\n- [ ] All MCP tools report clean status\n- [ ] Simulation runs successfully with Verilator\n- [ ] Requirements compliance verified\n"

/-- The `GetPromptRequestSchema` handler.  It consults no collaborator at
all; an unknown prompt name throws `McpError(ErrorCode.InvalidRequest, ...)`. -/
def getPrompt (name : String) (args : Args) : Except McpError PromptResult :=
  if name = "create-test-scenario" then
    let st := valDisp (promptArgOr args "scenario_type" (.vStr "basic"))
    let pt := valDisp (promptArgOr args "packet_type" (.vStr "IPv4"))
    let includeDebug := jsTruthy (promptArgOr args "include_debug" (.vBool false))
    .ok { description := "Enhanced test scenario for " ++ st ++ " with " ++ pt ++ " packets",
          messages := [{ role := "user", content := .text (testScenarioText st pt includeDebug) }] }
  else if name = "debug-workflow-guide" then
    let it := valDisp (promptArgOr args "issue_type" (.vStr "compilation"))
    let sy := valDisp (promptArgOr args "symptoms" (.vStr "Not specified"))
    .ok { description := "Debug workflow guide for " ++ it ++ " issues",
          messages := [{ role := "user", content := .text (debugWorkflowText it sy) }] }
  else
    .error { code := .InvalidRequest, message := "Unknown prompt: " ++ name }

/-! ## Verification helpers -/

/-- A dispatch outcome that is a normally returned response consisting of
exactly one text content block. -/
def isOkOneText : Except McpError (List ContentBlock) → Bool
  | .ok [.text _] => true
  | _ => false

/-- A concrete collaborator instance for instantiating theorems: the test
directory exists, every spawn succeeds with empty output, every filesystem
read fails. -/
def collab0 : Collab where
  access := fun _ => .ok ()
  exec := fun _ _ _ => .ok ("", "")
  readF := fun _ => .error "Error: ENOENT: no such file or directory"

/-- A second concrete collaborator instance, with the opposite outcomes. -/
def collab1 : Collab where
  access := fun _ => .error "Error: ENOENT: no such file or directory, access"
  exec := fun _ _ _ => .error "Error: Command failed with exit code 2: "
  readF := fun _ => .ok "SIM=icarus\n"

theorem containsL_of_isPrefixOf {pat l : List Char} (h : pat.isPrefixOf l = true) :
    containsL pat l = true := by
  cases l with
  | nil =>
    cases pat with
    | nil => rfl
    | cons a as => simp [List.isPrefixOf] at h
  | cons c rest => simp [containsL, h]

theorem containsStr_of_prefix {s p : String} (h : p.data.isPrefixOf s.data = true) :
    containsStr s p = true :=
  containsL_of_isPrefixOf h

theorem sim_prefix_joinSep (l : List String) :
    "SIM=verilator".data.isPrefixOf
      (joinSep " " ("SIM=verilator" :: l) ++ " " ++ "make test").data = true := by
  rw [List.isPrefixOf_iff_prefix]
  cases l with
  | nil =>
    show "SIM=verilator".data <+: ("SIM=verilator" ++ " " ++ "make test").data
    simp only [String.data_append, List.append_assoc]
    exact List.prefix_append _ _
  | cons b bs =>
    show "SIM=verilator".data <+:
      ("SIM=verilator" ++ " " ++ joinSep " " (b :: bs) ++ " " ++ "make test").data
    simp only [String.data_append, List.append_assoc]
    exact List.prefix_append _ _

theorem fullCommand_contains_sim (args : Args) :
    containsStr (fullCommandOf args) "SIM=verilator" = true := by
  apply containsStr_of_prefix
  exact sim_prefix_joinSep _

theorem isOkOneText_run (c : Collab) (args : Args) :
    isOkOneText (runFilterSimulation c args).1 = true := by
  unfold runFilterSimulation
  dsimp only
  split
  · rfl
  · split <;> rfl

theorem isOkOneText_analyzeVerilog (c : Collab) (args : Args) :
    isOkOneText (analyzeVerilogTool c args).1 = true := by
  unfold analyzeVerilogTool
  dsimp only
  split
  · rfl
  · split <;> rfl

theorem isOkOneText_checkInterface (c : Collab) (args : Args) :
    isOkOneText (checkInterfaceTool c args).1 = true := by
  unfold checkInterfaceTool
  dsimp only
  split
  · rfl
  · split <;> rfl

theorem isOkOneText_suggestMakefile (c : Collab) (args : Args) :
    isOkOneText (suggestMakefileTool c args).1 = true := by
  unfold suggestMakefileTool
  dsimp only
  split <;> rfl

/-- Checker for the enforced-simulator claim: the handler trace is exactly
the test-directory check followed by a single `bash -c` spawn in that
directory whose command string contains `SIM=verilator`. -/
def verilatorEnforcedTrace : List Effect → Bool
  | [.access d1, .spawn cmd cargs cwd] =>
    d1 == filterTestDir && cmd == "bash" && cwd == some filterTestDir &&
    (match cargs with
     | [flag, sh] => flag == "-c" && containsStr sh "SIM=verilator"
     | _ => false)
  | _ => false

/-- The three filesystem-backed resources: uri, backing path, fallback text. -/
def fsBackedResources : List (String × String × String) :=
  [ ("opennic://filter-requirements", requirementsPath, requirementsFallback),
    ("opennic://filter-implementation", submissionPath, submissionFallback),
    ("opennic://register-map", registerMapPath, registerMapFallback) ]

/-- A source text declaring the same package import, the same signal and the
same port twice over. -/
def dupDeclText : String :=
  "import foo::*\nimport foo::*\nlogic a;\nlogic a;\ninput b;\ninput b;"

/-- The spec's end-to-end property for `suggest-makefile-fixes` at a given
build-script content: the issues are exactly the two missing-marker
diagnostics, and the recommended fixes include an addition of the missing
COCOTB_ configuration line and one of the missing VERILOG_SOURCES line (a
fix recommending a configuration line necessarily mentions its marker
string). -/
abbrev claimThreeAt (content : String) : Prop :=
  (analyzeMakefileContent content).issues = [issueCocotb, issueVerilogSources]
  ∧ (fixChunks (analyzeMakefileContent content)).any
      (fun ch => containsStr ch "COCOTB_") = true
  ∧ (fixChunks (analyzeMakefileContent content)).any
      (fun ch => containsStr ch "VERILOG_SOURCES") = true

/-! ## The claims -/

/-- **C1** (the code contradicts its declared input shape): the tool
catalogue declares `test_type` as a required parameter of
`run-filter-simulation`, yet invoking the tool with an empty argument object
does not produce an `InvalidArguments` protocol error: the handler runs, the
Process Runner is called (a subprocess `bash -c "SIM=verilator make test"`
is spawned, the missing `test_type` simply selecting no `TESTCASE`), and a
normal single-text-block response is returned. -/
theorem missing_required_param_still_spawns :
    (toolCatalogue.any (fun t => t.name == "run-filter-simulation"
      && t.required.contains "test_type")) = true
    ∧ callTool collab0 "run-filter-simulation" [] =
      (.ok [.text (simulationSuccessText "SIM=verilator make test" "" "")],
       [.access filterTestDir,
        .spawn "bash" ["-c", "SIM=verilator make test"] (some filterTestDir)]) :=
  ⟨by decide, rfl⟩

/-- **C2.** For every tool invocation with a registered id and every
behaviour of the collaborators (missing file, missing working directory,
spawn failure, non-zero exit — any oracle outcome whatsoever), the handler
boundary converts the outcome into a normally returned response consisting
of exactly one text content block; no failure is re-raised to the transport
as a protocol-level error. -/
theorem tool_failures_degrade_to_content (name : String) (args : Args) (c : Collab)
    (h : name ∈ toolNames) :
    isOkOneText (callTool c name args).1 = true := by
  simp only [toolNames, toolCatalogue, List.map_cons, List.map_nil] at h
  fin_cases h
  · exact isOkOneText_run c args
  · exact isOkOneText_analyzeVerilog c args
  · exact isOkOneText_checkInterface c args
  · exact isOkOneText_suggestMakefile c args
  · rfl
  · rfl

/-- Witness for C2 at a concrete tool, argument object and collaborator. -/
theorem tool_failures_degrade_to_content_witness :
    isOkOneText (callTool collab1 "suggest-makefile-fixes"
      [("makefile_path", .vStr "/tmp/Makefile")]).1 = true :=
  tool_failures_degrade_to_content "suggest-makefile-fixes"
    [("makefile_path", .vStr "/tmp/Makefile")] collab1 (by decide)

/-- **C3** (counterexample): on the build script `"SIM=verilator"` — which
contains `SIM=verilator` and neither of the other two markers — the claim
fails: the issues section does enumerate exactly the two missing-marker
diagnostics, but the recommended fixes are not additions of the two missing
configuration lines (no fix block mentions `COCOTB_` or `VERILOG_SOURCES`
at all). -/
theorem suggest_fixes_counterexample : ¬ claimThreeAt "SIM=verilator" := by decide

/-- **C3** (amended): on every build script whose extracted simulator is
`verilator` and which contains neither `COCOTB_` nor `VERILOG_SOURCES`, the
analysis emits exactly the two missing-marker diagnostics, in check order;
the recommended-fixes section, however, consists only of the generic
clean-target and enhanced-configuration suggestions (the force-Verilator fix
being skipped), and recommends neither of the two missing configuration
lines. -/
theorem suggest_fixes_issues_and_generic_fixes (content : String)
    (hsim : simConfigOf content = "verilator")
    (hc : containsStr content "COCOTB_" = false)
    (hv : containsStr content "VERILOG_SOURCES" = false) :
    (analyzeMakefileContent content).issues = [issueCocotb, issueVerilogSources]
    ∧ (fixChunks (analyzeMakefileContent content)).all
        (fun ch => !containsStr ch "COCOTB_" && !containsStr ch "VERILOG_SOURCES") = true := by
  constructor
  · show issuesOf content = _
    unfold issuesOf
    rw [hsim, hc, hv]
    simp
  · have hs : (analyzeMakefileContent content).simulator_config = "verilator" := hsim
    unfold fixChunks
    rw [hs]
    cases hclean : (analyzeMakefileContent content).test_targets.contains "clean" <;>
      simp [hclean] <;> decide

/-- Witness for the amended C3 at the concrete script `"SIM=verilator"`. -/
theorem suggest_fixes_issues_and_generic_fixes_witness :
    (analyzeMakefileContent "SIM=verilator").issues = [issueCocotb, issueVerilogSources]
    ∧ (fixChunks (analyzeMakefileContent "SIM=verilator")).all
        (fun ch => !containsStr ch "COCOTB_" && !containsStr ch "VERILOG_SOURCES") = true :=
  suggest_fixes_issues_and_generic_fixes "SIM=verilator" (by decide) (by decide) (by decide)

/-- **C4** (counterexample): the extraction passes are not duplicate-free —
on a text declaring the same import, signal and port twice, every one of the
three result collections contains a duplicate. -/
theorem extractor_not_duplicate_free :
    ¬ ((analyzeVerilogContent dupDeclText).package_dependencies.Nodup
       ∧ (analyzeVerilogContent dupDeclText).signal_definitions.Nodup
       ∧ (analyzeVerilogContent dupDeclText).interface_ports.Nodup) := by decide

/-- **C4** (amended): the three passes return the extracted identifiers as
sequences in match (declaration) order, retaining duplicates: an identifier
declared twice appears twice. -/
theorem extractor_preserves_duplicates_in_order :
    analyzeVerilogContent dupDeclText =
      { synIssues := [], package_dependencies := ["foo", "foo"],
        signal_definitions := ["a", "a"], interface_ports := ["b", "b"] } := by decide

/-- **C5.** The Process Runner resolves successfully exactly when the child
closes with exit status zero (a spawn failure, `ProcEvent.errored`, is never
a success; it rejects with the spawn error itself — at that point no output
has been captured).  A close with any non-zero (or null) status rejects with
a failure carrying the captured stderr and the rendered exit code; in
particular exit 1 yields a failure carrying exit code 1, and exit 0 yields
success with stdout equal to the captured bytes. -/
theorem executeCommand_resolution (stdoutS stderrS : String) (ev : ProcEvent) :
    ((executeCommand stdoutS stderrS ev).isOk = true ↔ ev = .closed (some 0))
    ∧ executeCommand stdoutS stderrS (.closed (some 0)) = .ok (stdoutS, stderrS)
    ∧ (∀ n : Int, n ≠ 0 →
        executeCommand stdoutS stderrS (.closed (some n)) =
          .error ("Command failed with exit code " ++ toString n ++ ": " ++ stderrS))
    ∧ executeCommand stdoutS stderrS (.closed none) =
        .error ("Command failed with exit code null: " ++ stderrS)
    ∧ (∀ display, executeCommand stdoutS stderrS (.errored display) = .error display)
    ∧ executeCommand stdoutS stderrS (.closed (some 1)) =
        .error ("Command failed with exit code 1: " ++ stderrS) := by
  refine ⟨⟨?_, ?_⟩, rfl, ?_, rfl, fun _ => rfl, rfl⟩
  · intro hok
    cases ev with
    | closed code =>
      by_cases hc : code = some 0
      · rw [hc]
      · exfalso
        simp [executeCommand, hc, Except.isOk, Except.toBool] at hok
    | errored d => simp [executeCommand, Except.isOk, Except.toBool] at hok
  · rintro rfl
    rfl
  · intro n hn
    have hns : (some n : Option Int) ≠ some 0 := by simpa using hn
    simp [executeCommand, hns, jsCodeStr]

/-- Witness for C5: exit 1 rejects carrying code 1 and the captured stderr;
a spawn failure rejects with the spawn error. -/
theorem executeCommand_resolution_witness :
    executeCommand "out" "boom" (.closed (some 1)) =
      .error "Command failed with exit code 1: boom"
    ∧ executeCommand "out" "boom" (.errored "Error: spawn ENOENT") =
      .error "Error: spawn ENOENT" :=
  ⟨(executeCommand_resolution "out" "boom" (.closed (some 1))).2.2.2.2.2,
   (executeCommand_resolution "out" "boom" (.errored "Error: spawn ENOENT")).2.2.2.2.1
     "Error: spawn ENOENT"⟩

/-- **C6.** For every filesystem-backed resource of the catalogue, when the
backing read fails (whatever the failure), resolution returns — normally,
never as a thrown error — exactly one text block holding that resource's
fixed fallback message. -/
theorem resource_read_failure_falls_back (uri path fb : String)
    (hmem : (uri, path, fb) ∈ fsBackedResources) (c : Collab) (e : String)
    (hread : c.readF path = .error e) :
    (readResource c uri).1 = .ok [.text fb] := by
  simp only [fsBackedResources, List.mem_cons, List.mem_singleton, Prod.mk.injEq,
    List.not_mem_nil, or_false] at hmem
  rcases hmem with ⟨rfl, rfl, rfl⟩ | ⟨rfl, rfl, rfl⟩ | ⟨rfl, rfl, rfl⟩ <;>
    simp [readResource, readFileContent, hread]

/-- Witness for C6 at the requirements resource with a failing reader. -/
theorem resource_read_failure_falls_back_witness :
    (readResource collab0 "opennic://filter-requirements").1 =
      .ok [.text requirementsFallback] :=
  resource_read_failure_falls_back "opennic://filter-requirements" requirementsPath
    requirementsFallback (by decide) collab0
    "Error: ENOENT: no such file or directory" rfl

/-- **C7.** Build-script analysis of the empty string yields the
`not_specified` simulator sentinel, empty target and dependency lists, and
exactly the three diagnostics (simulator unset, missing COCOTB_
configuration, missing VERILOG_SOURCES) in the fixed check order. -/
theorem makefile_analysis_empty_string :
    analyzeMakefileContent "" =
      { simulator_config := "not_specified", test_targets := [], dependencies := [],
        issues := [issueSimNotSet, issueCocotb, issueVerilogSources] } := by decide

/-- **C8.** For every capability id outside the declared catalogue — tool
name, resource uri or prompt name — dispatch throws the protocol error for
an unknown capability (`McpError` with `ErrorCode.InvalidRequest` and an
`Unknown ...` message, the source's rendering of the spec's
`UnknownCapability`), no handler runs, and no collaborator effect is
recorded: no subprocess is spawned and no file is read. -/
theorem unknown_capability_is_protocol_error :
    (∀ (c : Collab) (name : String) (args : Args), name ∉ toolNames →
      callTool c name args =
        (.error { code := .InvalidRequest, message := "Unknown tool: " ++ name }, []))
    ∧ (∀ (c : Collab) (uri : String), uri ∉ resourceUris →
      readResource c uri =
        (.error { code := .InvalidRequest, message := "Unknown resource: " ++ uri }, []))
    ∧ (∀ (name : String) (args : Args), name ∉ promptNames →
      getPrompt name args =
        .error { code := .InvalidRequest, message := "Unknown prompt: " ++ name }) := by
  refine ⟨?_, ?_, ?_⟩
  · intro c name args h
    have h1 : name ≠ "run-filter-simulation" := by rintro rfl; exact h (by decide)
    have h2 : name ≠ "analyze-verilog-syntax" := by rintro rfl; exact h (by decide)
    have h3 : name ≠ "check-interface-compatibility" := by rintro rfl; exact h (by decide)
    have h4 : name ≠ "suggest-makefile-fixes" := by rintro rfl; exact h (by decide)
    have h5 : name ≠ "cross-reference-signals" := by rintro rfl; exact h (by decide)
    have h6 : name ≠ "check-requirements-compliance" := by rintro rfl; exact h (by decide)
    simp [callTool, h1, h2, h3, h4, h5, h6]
  · intro c uri h
    have h1 : uri ≠ "opennic://filter-requirements" := by rintro rfl; exact h (by decide)
    have h2 : uri ≠ "opennic://filter-implementation" := by rintro rfl; exact h (by decide)
    have h3 : uri ≠ "opennic://register-map" := by rintro rfl; exact h (by decide)
    have h4 : uri ≠ "opennic://simulation-guide" := by rintro rfl; exact h (by decide)
    have h5 : uri ≠ "opennic://debug-workflow" := by rintro rfl; exact h (by decide)
    simp [readResource, h1, h2, h3, h4, h5]
  · intro name args h
    have h1 : name ≠ "create-test-scenario" := by rintro rfl; exact h (by decide)
    have h2 : name ≠ "debug-workflow-guide" := by rintro rfl; exact h (by decide)
    simp [getPrompt, h1, h2]

/-- Witness for C8: an id unknown to each of the three registries. -/
theorem unknown_capability_is_protocol_error_witness :
    callTool collab0 "nope" [] =
      (.error { code := .InvalidRequest, message := "Unknown tool: nope" }, [])
    ∧ readResource collab0 "opennic://nope" =
      (.error { code := .InvalidRequest, message := "Unknown resource: opennic://nope" }, [])
    ∧ getPrompt "nope" [] =
      .error { code := .InvalidRequest, message := "Unknown prompt: nope" } :=
  ⟨unknown_capability_is_protocol_error.1 collab0 "nope" [] (by decide),
   unknown_capability_is_protocol_error.2.1 collab0 "opennic://nope" (by decide),
   unknown_capability_is_protocol_error.2.2 "nope" [] (by decide)⟩

/-- **C9.** For every declared `requirement_type`, the compliance tool's
response is identical whatever the collaborators do (it consults none), its
effect trace is empty (no file read, no subprocess), and every per-check
status it reports is a hardcoded success string beginning with `✅`. -/
theorem compliance_statuses_hardcoded (rt : String)
    (h : rt ∈ ["functional", "interface", "performance", "all"]) (c c' : Collab) :
    callTool c "check-requirements-compliance" [("requirement_type", .vStr rt)] =
      callTool c' "check-requirements-compliance" [("requirement_type", .vStr rt)]
    ∧ (callTool c "check-requirements-compliance" [("requirement_type", .vStr rt)]).2 = []
    ∧ (checksToRun (some (.vStr rt))).all
        (fun chk => "✅ ".data.isPrefixOf chk.status.data) = true := by
  refine ⟨rfl, rfl, ?_⟩
  fin_cases h <;> decide

/-- Witness for C9 at `requirement_type = "all"` and two collaborators with
opposite behaviours. -/
theorem compliance_statuses_hardcoded_witness :
    callTool collab0 "check-requirements-compliance" [("requirement_type", .vStr "all")] =
      callTool collab1 "check-requirements-compliance" [("requirement_type", .vStr "all")]
    ∧ (callTool collab0 "check-requirements-compliance"
        [("requirement_type", .vStr "all")]).2 = []
    ∧ (checksToRun (some (.vStr "all"))).all
        (fun chk => "✅ ".data.isPrefixOf chk.status.data) = true :=
  compliance_statuses_hardcoded "all" (by decide) collab0 collab1

/-- **C10.** Whenever `run-filter-simulation` reaches command execution (the
test directory check succeeds), whatever the supplied `test_type`, `debug`
and `waves` arguments, the handler's trace is exactly one `bash -c` spawn in
the test directory (after the directory check), and the command string
handed to the Process Runner contains the assignment `SIM=verilator`. -/
theorem run_simulation_enforces_verilator (args : Args) (c : Collab)
    (h : c.access filterTestDir = .ok ()) :
    verilatorEnforcedTrace (callTool c "run-filter-simulation" args).2 = true := by
  show verilatorEnforcedTrace (runFilterSimulation c args).2 = true
  unfold runFilterSimulation
  dsimp only
  rw [h]
  cases hex : c.exec "bash" ["-c", fullCommandOf args] (some filterTestDir) <;>
    simp [verilatorEnforcedTrace, fullCommand_contains_sim args]

/-- Witness for C10 at concrete arguments and a collaborator whose test
directory exists. -/
theorem run_simulation_enforces_verilator_witness :
    verilatorEnforcedTrace (callTool collab0 "run-filter-simulation"
      [("test_type", .vStr "basic"), ("waves", .vBool true)]).2 = true :=
  run_simulation_enforces_verilator
    [("test_type", .vStr "basic"), ("waves", .vBool true)] collab0 rfl
